import Mathlib

/-!
Shallow embedding of `src/snake.c`: a two-process shared-memory snake game.

The shared `GameState` struct, the simulation step (`move_snake`,
`spawn_food`, `check_collision`, `init_game`), the input handling
(`handle_input`'s pause / reset / takeover / arrow / WASD branches), the
region initialization (`setup_mmap`'s magic check) and the dormant waiting
loop (`main`'s takeover-flag and heartbeat-timeout checks) are translated
into Lean definitions, and the spec's claims are settled as theorems about
those definitions.

Machine integers are modelled as `Nat`/`Int`; the one place where 32-bit
wraparound is reachable (`score += 10`) carries an explicit `% 2^32`.
The `rand()` stream consumed by `spawn_food`'s rejection sampling is
passed in as an explicit list of raw `(rand, rand)` draws; exhaustion of
the list (the C loop never terminating) is `none`.
-/

/-! ### Constants from snake.c -/

def MAX_SNAKE_LEN : Nat := 1000
def BOARD_WIDTH : Nat := 78
def BOARD_HEIGHT : Nat := 18
def INITIAL_SNAKE_LEN : Nat := 3
def MAGIC_NUMBER : Nat := 0x12345678
def STATE_RUNNING : Nat := 0
def STATE_PAUSED : Nat := 1
def STATE_GAMEOVER : Nat := 2
def DIR_UP : Nat := 0
def DIR_DOWN : Nat := 1
def DIR_LEFT : Nat := 2
def DIR_RIGHT : Nat := 3
def UINT32_MOD : Nat := 2 ^ 32

/-! ### Data model: the shared region -/

/-- `Point` from snake.c: a pair of `int32_t` coordinates. -/
structure Point where
  x : Int
  y : Int
deriving DecidableEq, Repr

instance : Inhabited Point := ⟨⟨0, 0⟩⟩

/-- The shared `GameState` struct.  The C `snake` array together with
`snake_length` is modelled as the list of its first `snake_length`
entries (entries past `snake_length` are never read by the program);
`food_x`/`food_y` are bundled as one `Point`. -/
structure GameState where
  heartbeat : Nat
  magic_number : Nat
  game_state : Nat
  score : Nat
  high_score : Nat
  snake : List Point
  direction : Nat
  food : Point
  takeover_request : Nat
deriving DecidableEq, Repr

/-- `snake_length` field of the C struct. -/
def GameState.snake_length (s : GameState) : Nat := s.snake.length

/-! ### setup_mmap: magic check and region (re)initialization -/

/-- The canonical zero-filled region (`memset(g_state, 0, ...)`) with the
magic re-stamped, as produced by `setup_mmap` on a magic mismatch. -/
def emptyRegion : GameState :=
  { heartbeat := 0, magic_number := MAGIC_NUMBER, game_state := 0, score := 0,
    high_score := 0, snake := [], direction := 0, food := ⟨0, 0⟩,
    takeover_request := 0 }

/-- Lines 253-256 of `setup_mmap`: if the magic does not match, zero-fill
the region and re-stamp the magic; otherwise leave it untouched. -/
def openRegion (s : GameState) : GameState :=
  if s.magic_number ≠ MAGIC_NUMBER then emptyRegion else s

/-! ### Simulation engine -/

/-- `spawn_food`'s rejection sampling: each attempt draws two raw `rand()`
values and reduces them mod the board size; the first candidate not on the
body is the food cell.  `none` models exhausting the provided draws
(the C loop spinning forever). -/
def spawn_food (body : List Point) : List (Nat × Nat) → Option Point
  | [] => none
  | (rx, ry) :: rest =>
    if (⟨(rx % BOARD_WIDTH : Nat), (ry % BOARD_HEIGHT : Nat)⟩ : Point) ∈ body then
      spawn_food body rest
    else some ⟨(rx % BOARD_WIDTH : Nat), (ry % BOARD_HEIGHT : Nat)⟩

/-- The initial body written by `init_game`: `snake[i] = (W/2 - i, H/2)`
for `i < INITIAL_SNAKE_LEN`. -/
def init_body : List Point :=
  (List.range INITIAL_SNAKE_LEN).map
    (fun i => ⟨(BOARD_WIDTH : Int) / 2 - i, (BOARD_HEIGHT : Int) / 2⟩)

/-- `init_game`: reset phase, score, body and heading, then draw food.
`high_score`, `heartbeat`, `magic_number` and `takeover_request` are not
touched. -/
def init_game (s : GameState) (rnds : List (Nat × Nat)) : Option GameState :=
  let s1 := { s with game_state := STATE_RUNNING, score := 0,
                     snake := init_body, direction := DIR_RIGHT }
  match spawn_food s1.snake rnds with
  | none => none
  | some f => some { s1 with food := f }

/-- The `switch (g_state->direction)` of `move_snake`: unit displacement;
a direction value outside 0..3 falls through the switch and leaves the
head where it is. -/
def applyDir (d : Nat) (p : Point) : Point :=
  if d = DIR_UP then { p with y := p.y - 1 }
  else if d = DIR_DOWN then { p with y := p.y + 1 }
  else if d = DIR_LEFT then { p with x := p.x - 1 }
  else if d = DIR_RIGHT then { p with x := p.x + 1 }
  else p

/-- The wall test of `move_snake` (lines 320-321). -/
def out_of_bounds (p : Point) : Prop :=
  p.x < 0 ∨ (BOARD_WIDTH : Int) ≤ p.x ∨ p.y < 0 ∨ (BOARD_HEIGHT : Int) ≤ p.y

instance (p : Point) : Decidable (out_of_bounds p) := by
  unfold out_of_bounds; infer_instance

/-- `check_collision`: the head against every later body segment. -/
def check_collision (body : List Point) : Bool :=
  match body with
  | [] => false
  | head :: tail => tail.contains head

/-- The `ate_food` body update of `move_snake` (lines 334-342): below the
cap every segment shifts back and the length grows; at the cap the guard
skips the shift entirely, so writing the new head over `snake[0]` drops
the old head while the rest of the body stays in place. -/
def grow_body (body : List Point) (new_head : Point) : List Point :=
  if body.length < MAX_SNAKE_LEN then new_head :: body
  else new_head :: body.tail

/-- The normal-move body update of `move_snake` (lines 344-348): shift
every segment back one slot and write the new head. -/
def shift_body (body : List Point) (new_head : Point) : List Point :=
  new_head :: body.take (body.length - 1)

/-- `if (score > high_score) high_score = score;` -/
def commit_high (s : GameState) : GameState :=
  if s.high_score < s.score then { s with high_score := s.score } else s

/-- The state after the body update and self-collision check of
`move_snake` (lines 350-359), for a given updated body. -/
def after_body (s : GameState) (body : List Point) : GameState :=
  if check_collision body then
    commit_high { s with snake := body, game_state := STATE_GAMEOVER }
  else { s with snake := body }

/-- `move_snake`, lines 304-368.  Returns `none` only when food was eaten
and the supplied random draws never hit a free cell. -/
def move_snake (s : GameState) (rnds : List (Nat × Nat)) : Option GameState :=
  if s.game_state ≠ STATE_RUNNING then some s
  else
    let new_head := applyDir s.direction s.snake.headI
    if out_of_bounds new_head then
      some (commit_high { s with game_state := STATE_GAMEOVER })
    else
      let ate_food : Bool := new_head = s.food
      let body1 := if ate_food then grow_body s.snake new_head
                   else shift_body s.snake new_head
      let s1 := { s with snake := body1 }
      let s2 := if check_collision s1.snake then
                  commit_high { s1 with game_state := STATE_GAMEOVER }
                else s1
      if ate_food then
        match spawn_food s2.snake rnds with
        | none => none
        | some f =>
          some { s2 with score := (s2.score + 10) % UINT32_MOD, food := f }
      else some s2

/-! ### Input handling (handle_input) -/

/-- The `'p'` branch of `handle_input`: toggle Running/Paused, no-op in
game-over. -/
def pause_toggle (s : GameState) : GameState :=
  if s.game_state = STATE_RUNNING then { s with game_state := STATE_PAUSED }
  else if s.game_state = STATE_PAUSED then { s with game_state := STATE_RUNNING }
  else s

/-- The arrow-key switch (lines 438-455): requested direction with the
reverse-direction guard folded in. -/
def arrow_new_dir (dir : Nat) (c : Char) : Nat :=
  if c = 'A' then (if dir ≠ DIR_DOWN then DIR_UP else dir)
  else if c = 'B' then (if dir ≠ DIR_UP then DIR_DOWN else dir)
  else if c = 'C' then (if dir ≠ DIR_LEFT then DIR_RIGHT else dir)
  else if c = 'D' then (if dir ≠ DIR_RIGHT then DIR_LEFT else dir)
  else dir

/-- Lines 436-461: the arrow-key path.  The candidate direction is
computed unconditionally but only stored while Running and only when it
differs from the current one. -/
def arrow_input (s : GameState) (c : Char) : GameState :=
  if s.game_state = STATE_RUNNING ∧ arrow_new_dir s.direction c ≠ s.direction then
    { s with direction := arrow_new_dir s.direction c }
  else s

/-- The WASD switch (lines 473-490). -/
def wasd_new_dir (dir : Nat) (c : Char) : Nat :=
  if c = 'w' ∨ c = 'W' then (if dir ≠ DIR_DOWN then DIR_UP else dir)
  else if c = 's' ∨ c = 'S' then (if dir ≠ DIR_UP then DIR_DOWN else dir)
  else if c = 'a' ∨ c = 'A' then (if dir ≠ DIR_RIGHT then DIR_LEFT else dir)
  else if c = 'd' ∨ c = 'D' then (if dir ≠ DIR_LEFT then DIR_RIGHT else dir)
  else dir

/-- Lines 470-496: the WASD path, guarded as a whole by Running. -/
def wasd_input (s : GameState) (c : Char) : GameState :=
  if s.game_state = STATE_RUNNING then
    if wasd_new_dir s.direction c ≠ s.direction then
      { s with direction := wasd_new_dir s.direction c }
    else s
  else s

/-- The heading an arrow key asks for, independent of any guard. -/
def arrow_request (c : Char) : Option Nat :=
  if c = 'A' then some DIR_UP
  else if c = 'B' then some DIR_DOWN
  else if c = 'C' then some DIR_RIGHT
  else if c = 'D' then some DIR_LEFT
  else none

/-- The heading a WASD key asks for. -/
def wasd_request (c : Char) : Option Nat :=
  if c = 'w' ∨ c = 'W' then some DIR_UP
  else if c = 's' ∨ c = 'S' then some DIR_DOWN
  else if c = 'a' ∨ c = 'A' then some DIR_LEFT
  else if c = 'd' ∨ c = 'D' then some DIR_RIGHT
  else none

/-- The exact reverse of a heading; values outside 0..3 have no reverse. -/
def reverse_of (d : Nat) : Nat :=
  if d = DIR_UP then DIR_DOWN
  else if d = DIR_DOWN then DIR_UP
  else if d = DIR_LEFT then DIR_RIGHT
  else if d = DIR_RIGHT then DIR_LEFT
  else d

/-! ### Role arbitration: takeover and the dormant waiting loop -/

/-- The per-process local flags of the role protocol: `g_is_active` and
`g_initiated_takeover`. -/
structure ActiveLocal where
  active : Bool
  initiated : Bool
deriving DecidableEq, Repr

/-- The `'t'` branch of `handle_input` (lines 420-427): stamp the shared
takeover flag, drop to waiting mode, and remember that this process
originated the request. -/
def press_takeover (s : GameState) (_l : ActiveLocal) : GameState × ActiveLocal :=
  ({ s with takeover_request := 1 }, { active := false, initiated := true })

/-- The local state of the waiting loop: `last_heartbeat`,
`last_check_time`, `g_is_active`, `g_initiated_takeover`. -/
structure DormantLocal where
  lastHeartbeat : Nat
  lastCheckTime : Nat
  active : Bool
  initiated : Bool
deriving DecidableEq, Repr

/-- Lines 793-806 of `main`: the takeover-flag check of the waiting loop.
Returns the new local state together with the (possibly cleared) shared
`takeover_request` field.  A pending flag makes a non-initiator claim
Active and clear the flag; the initiator leaves both alone; a cleared
flag resets the initiator's memory of its own request. -/
def takeover_flag_check (req : Nat) (l : DormantLocal) : DormantLocal × Nat :=
  if req ≠ 0 then
    (if l.initiated = false then ({ l with active := true }, 0) else (l, req))
  else if l.initiated = true then ({ l with initiated := false }, req)
  else (l, req)

/-- Lines 808-831 of `main`: the once-per-second heartbeat staleness
check.  `hb` is the heartbeat read from the region at time `now`. -/
def heartbeat_check (req : Nat) (hb : Nat) (now : Nat) (l : DormantLocal) :
    DormantLocal × Nat :=
  if 1000 ≤ now - l.lastCheckTime then
    if hb = l.lastHeartbeat then
      ({ l with active := true, initiated := false }, req)
    else
      ({ l with lastHeartbeat := hb, lastCheckTime := now }, req)
  else (l, req)

/-- One iteration of the waiting loop (takeover-flag check, then — unless
the flag already promoted us — the heartbeat check); an already-active
state has left the loop and no longer changes. -/
def dormant_iter (req : Nat) (hb : Nat) (now : Nat) (l : DormantLocal) :
    DormantLocal × Nat :=
  if l.active then (l, req)
  else
    let fr := takeover_flag_check req l
    if fr.1.active then fr
    else heartbeat_check fr.2 hb now fr.1

/-- The waiting loop run against a heartbeat trace `HB` (region heartbeat
as a function of elapsed milliseconds) with no takeover flag pending,
one iteration per 100 ms poll sleep: `dormant_run HB n` is the local
state after `n` iterations, entered at time 0 with `last_heartbeat`
sampled from the region and `last_check_time = now`. -/
def dormant_run (HB : Nat → Nat) : Nat → DormantLocal
  | 0 => { lastHeartbeat := HB 0, lastCheckTime := 0,
           active := false, initiated := false }
  | n + 1 => (dormant_iter 0 (HB (100 * n)) (100 * n) (dormant_run HB n)).1

/-- Lines 822-826 of `main`: what the heartbeat-timeout takeover does to
the shared simulation state — a Reset exactly when the saved body length
is zero, otherwise the state is adopted as found. -/
def takeover_resume (s : GameState) (rnds : List (Nat × Nat)) : Option GameState :=
  if s.snake_length = 0 then init_game s rnds else some s

/-! ### Sequences of operations (for the high-score claims) -/

/-- One Active-side operation: a simulation step or one `handle_input`
command (each carrying the random draws it may consume). -/
inductive Op where
  | step (rnds : List (Nat × Nat))
  | pauseKey
  | resetKey (rnds : List (Nat × Nat))
  | arrowKey (c : Char)
  | wasdKey (c : Char)

/-- Apply one operation; the `'r'` key resets only in game-over
(lines 413-418). -/
def apply_op (s : GameState) : Op → Option GameState
  | .step rnds => move_snake s rnds
  | .pauseKey => some (pause_toggle s)
  | .resetKey rnds =>
      if s.game_state = STATE_GAMEOVER then init_game s rnds else some s
  | .arrowKey c => some (arrow_input s c)
  | .wasdKey c => some (wasd_input s c)

/-- Run a sequence of operations. -/
def run_ops (s : GameState) : List Op → Option GameState
  | [] => some s
  | op :: ops =>
    match apply_op s op with
    | none => none
    | some s1 => run_ops s1 ops

/-- The food cell is never a body cell: established by `spawn_food` and
maintained by every operation. -/
def FoodInv (s : GameState) : Prop := s.food ∉ s.snake

/-! ### Concrete states and traces used as inputs to the theorems -/

/-- A region full of garbage with a wrong magic. -/
def garbageRegion : GameState :=
  { heartbeat := 77, magic_number := 42, game_state := 2, score := 5,
    high_score := 9, snake := [⟨1, 2⟩], direction := 3, food := ⟨4, 4⟩,
    takeover_request := 1 }

/-- A game-over snapshot with a non-empty body, as a heartbeat-timeout
takeover may find it. -/
def overSnapshot : GameState :=
  { heartbeat := 3, magic_number := MAGIC_NUMBER, game_state := STATE_GAMEOVER,
    score := 50, high_score := 50, snake := [⟨1, 1⟩, ⟨2, 1⟩, ⟨3, 1⟩],
    direction := DIR_RIGHT, food := ⟨0, 0⟩, takeover_request := 0 }

/-- A Running snapshot whose body already has the maximal length 1000,
heading up, with the food directly above the head. -/
def fullSnapshot : GameState :=
  { heartbeat := 0, magic_number := MAGIC_NUMBER, game_state := STATE_RUNNING,
    score := 0, high_score := 0,
    snake := (List.range MAX_SNAKE_LEN).map (fun i => ⟨5, 1 + (i : Int)⟩),
    direction := DIR_UP, food := ⟨5, 0⟩, takeover_request := 0 }

/-- A heartbeat trace that advances roughly every 500 ms, advances one
last time at 2050 ms, and is frozen from then on (the active owner dies
just after its last heartbeat stamp). -/
def staleTrace (t : Nat) : Nat :=
  if t < 500 then 0
  else if t < 1000 then 1
  else if t < 1500 then 2
  else if t < 2000 then 3
  else if t < 2050 then 4
  else 5

/-- A small Running snapshot: head at (10,5) moving right, food at (11,5),
body of length 3, used to instantiate the step theorems. -/
def eatSnapshot : GameState :=
  { heartbeat := 0, magic_number := MAGIC_NUMBER, game_state := STATE_RUNNING,
    score := 30, high_score := 40, snake := [⟨10, 5⟩, ⟨9, 5⟩, ⟨8, 5⟩],
    direction := DIR_RIGHT, food := ⟨11, 5⟩, takeover_request := 0 }

/-- A Running snapshot whose head sits on the left wall heading left. -/
def wallSnapshot : GameState :=
  { heartbeat := 0, magic_number := MAGIC_NUMBER, game_state := STATE_RUNNING,
    score := 30, high_score := 20, snake := [⟨0, 5⟩, ⟨1, 5⟩, ⟨2, 5⟩],
    direction := DIR_LEFT, food := ⟨11, 5⟩, takeover_request := 0 }

/-- The state `move_snake eatSnapshot [(0, 0)]` produces: the head moved
onto the food, the body grew, the score rose by 10, new food at (0,0). -/
def eatStepResult : GameState :=
  { eatSnapshot with snake := ⟨11, 5⟩ :: eatSnapshot.snake, score := 40,
                     food := ⟨0, 0⟩ }

/-- The state `move_snake fullSnapshot [(0, 0)]` produces: head on the
food cell, body still of length 1000 (old head dropped), score + 10. -/
def fullStepResult : GameState :=
  { fullSnapshot with snake := ⟨5, 0⟩ :: fullSnapshot.snake.tail, score := 10,
                      food := ⟨0, 0⟩ }

/-! ## Helper lemmas -/

theorem commit_high_snake (s : GameState) : (commit_high s).snake = s.snake := by
  unfold commit_high; split <;> rfl

theorem commit_high_score (s : GameState) : (commit_high s).score = s.score := by
  unfold commit_high; split <;> rfl

theorem commit_high_game_state (s : GameState) :
    (commit_high s).game_state = s.game_state := by
  unfold commit_high; split <;> rfl

theorem commit_high_food (s : GameState) : (commit_high s).food = s.food := by
  unfold commit_high; split <;> rfl

theorem commit_high_high (s : GameState) :
    (commit_high s).high_score = max s.high_score s.score := by
  unfold commit_high; split <;> (try simp) <;> omega

theorem commit_high_le (s : GameState) :
    s.high_score ≤ (commit_high s).high_score := by
  unfold commit_high; split <;> (try simp) <;> omega

theorem commit_high_score_le (s : GameState) :
    s.score ≤ (commit_high s).high_score := by
  unfold commit_high; split <;> (try simp) <;> omega

theorem after_body_snake (s : GameState) (body : List Point) :
    (after_body s body).snake = body := by
  unfold after_body; split <;> simp [commit_high_snake]

theorem after_body_score (s : GameState) (body : List Point) :
    (after_body s body).score = s.score := by
  unfold after_body; split <;> simp [commit_high_score]

theorem after_body_food (s : GameState) (body : List Point) :
    (after_body s body).food = s.food := by
  unfold after_body; split <;> simp [commit_high_food]

theorem after_body_high_ge (s : GameState) (body : List Point) :
    s.high_score ≤ (after_body s body).high_score := by
  unfold after_body; split
  · calc s.high_score
        = ({ s with snake := body, game_state := STATE_GAMEOVER } : GameState).high_score := rfl
      _ ≤ _ := commit_high_le _
  · simp

/-- Rejection sampling never places the food on the body. -/
theorem spawn_food_not_mem (body : List Point) :
    ∀ rnds f, spawn_food body rnds = some f → f ∉ body := by
  intro rnds
  induction rnds with
  | nil => intro f h; simp [spawn_food] at h
  | cons c rest ih =>
    obtain ⟨rx, ry⟩ := c
    intro f h
    unfold spawn_food at h
    split at h
    · exact ih f h
    · cases h; assumption

/-- Scenario split: `move_snake` on a non-Running state is the identity. -/
theorem move_snake_not_running (s : GameState) (rnds : List (Nat × Nat))
    (h : s.game_state ≠ STATE_RUNNING) : move_snake s rnds = some s := by
  unfold move_snake; rw [if_pos h]

/-- Scenario split: the wall-collision branch. -/
theorem move_snake_wall (s : GameState) (rnds : List (Nat × Nat))
    (hrun : s.game_state = STATE_RUNNING)
    (hout : out_of_bounds (applyDir s.direction s.snake.headI)) :
    move_snake s rnds = some (commit_high { s with game_state := STATE_GAMEOVER }) := by
  unfold move_snake
  rw [if_neg (by simp [hrun])]
  simp only [if_pos hout]

/-- Scenario split: the normal-move branch (no wall hit, no food). -/
theorem move_snake_normal (s : GameState) (rnds : List (Nat × Nat))
    (hrun : s.game_state = STATE_RUNNING)
    (hin : ¬ out_of_bounds (applyDir s.direction s.snake.headI))
    (hne : applyDir s.direction s.snake.headI ≠ s.food) :
    move_snake s rnds =
      some (after_body s (shift_body s.snake (applyDir s.direction s.snake.headI))) := by
  unfold move_snake after_body
  rw [if_neg (by simp [hrun])]
  simp only [if_neg hin, decide_eq_false hne, Bool.false_eq_true, if_false]

/-- Scenario split: the food branch. -/
theorem move_snake_ate (s : GameState) (rnds : List (Nat × Nat))
    (hrun : s.game_state = STATE_RUNNING)
    (hin : ¬ out_of_bounds (applyDir s.direction s.snake.headI))
    (hate : applyDir s.direction s.snake.headI = s.food) :
    move_snake s rnds =
      match spawn_food (grow_body s.snake (applyDir s.direction s.snake.headI)) rnds with
      | none => none
      | some f =>
        some { after_body s (grow_body s.snake (applyDir s.direction s.snake.headI)) with
               score := (s.score + 10) % UINT32_MOD, food := f } := by
  unfold move_snake after_body
  rw [if_neg (by simp [hrun])]
  simp only [if_neg hin, decide_eq_true hate, if_true]
  rw [show (if check_collision (grow_body s.snake (applyDir s.direction s.snake.headI)) then
        commit_high { s with snake := grow_body s.snake (applyDir s.direction s.snake.headI),
                             game_state := STATE_GAMEOVER }
      else { s with snake := grow_body s.snake (applyDir s.direction s.snake.headI) }).snake
      = grow_body s.snake (applyDir s.direction s.snake.headI) by
    split <;> simp [commit_high_snake]]
  rw [show (if check_collision (grow_body s.snake (applyDir s.direction s.snake.headI)) then
        commit_high { s with snake := grow_body s.snake (applyDir s.direction s.snake.headI),
                             game_state := STATE_GAMEOVER }
      else { s with snake := grow_body s.snake (applyDir s.direction s.snake.headI) }).score
      = s.score by
    split <;> simp [commit_high_score]]

/-! ## C4: region initialization on magic mismatch -/

/-- C4: opening the region with a wrong magic zero-fills it and re-stamps
the magic, yielding the canonical empty state (score, high score, body
length and heartbeat all zero) whatever the prior contents; a matching
magic leaves the region untouched; the reinitialization is idempotent. -/
theorem open_region_magic (s : GameState) :
    (s.magic_number ≠ MAGIC_NUMBER →
      openRegion s = emptyRegion ∧ (openRegion s).score = 0 ∧
      (openRegion s).high_score = 0 ∧ (openRegion s).snake_length = 0 ∧
      (openRegion s).heartbeat = 0) ∧
    (s.magic_number = MAGIC_NUMBER → openRegion s = s) ∧
    openRegion (openRegion s) = openRegion s := by
  by_cases h : s.magic_number = MAGIC_NUMBER <;>
    simp [openRegion, emptyRegion, h, GameState.snake_length]

/-- C4 witness: the garbage region is reinitialized, and reinitializing
the result again changes nothing. -/
theorem open_region_magic_witness :
    openRegion garbageRegion = emptyRegion ∧
    openRegion (openRegion garbageRegion) = openRegion garbageRegion :=
  ⟨((open_region_magic garbageRegion).1 (by decide)).1,
   (open_region_magic garbageRegion).2.2⟩

/-! ## C1: no self-reclaim from a self-set takeover flag -/

/-- C1: pressing the relinquish key stamps the shared flag and records
local self-origination; the flag check of the waiting loop never makes
the originator Active (it leaves its role and the pending flag alone),
while a non-originating observer claims Active from the flag and clears
it. -/
theorem no_self_reclaim_from_flag (s : GameState) (l : ActiveLocal)
    (l2 : DormantLocal) (req : Nat) :
    ((press_takeover s l).1.takeover_request = 1 ∧
     (press_takeover s l).2.initiated = true ∧
     (press_takeover s l).2.active = false) ∧
    (l2.initiated = true → req ≠ 0 →
      (takeover_flag_check req l2).1.active = l2.active ∧
      (takeover_flag_check req l2).1.initiated = true ∧
      (takeover_flag_check req l2).2 = req) ∧
    (l2.initiated = false → l2.active = false → req ≠ 0 →
      (takeover_flag_check req l2).1.active = true ∧
      (takeover_flag_check req l2).2 = 0) := by
  refine ⟨⟨rfl, rfl, rfl⟩, ?_, ?_⟩ <;>
    intros <;> unfold takeover_flag_check <;> simp_all

/-- C1 witness: at a concrete pending flag, the originator stays dormant
with the flag still set, and a distinct observer claims and clears it. -/
theorem no_self_reclaim_from_flag_witness :
    (takeover_flag_check 1
      { lastHeartbeat := 4, lastCheckTime := 0, active := false,
        initiated := true }).1.active = false ∧
    (takeover_flag_check 1
      { lastHeartbeat := 4, lastCheckTime := 0, active := false,
        initiated := false }).1.active = true := by
  have h1 := (no_self_reclaim_from_flag emptyRegion ⟨true, false⟩
    { lastHeartbeat := 4, lastCheckTime := 0, active := false,
      initiated := true } 1).2.1 rfl (by decide)
  have h2 := (no_self_reclaim_from_flag emptyRegion ⟨true, false⟩
    { lastHeartbeat := 4, lastCheckTime := 0, active := false,
      initiated := false } 1).2.2 rfl rfl (by decide)
  exact ⟨h1.1, h2.1⟩

/-! ## C3: what a Dormant-to-Active transition resets -/

/-- C3 counterexample: a heartbeat-timeout takeover that finds a
game-over snapshot with a non-empty body does not reset it — the state
is adopted unchanged, still in phase Over with its old score — although
a Reset always leaves phase Running with score 0. -/
theorem resume_over_state_not_reset :
    takeover_resume overSnapshot [] = some overSnapshot ∧
    overSnapshot.game_state = STATE_GAMEOVER ∧
    overSnapshot.snake_length = 3 ∧
    overSnapshot.score = 50 ∧
    (init_game overSnapshot [(0, 0)]).map (fun t => t.game_state) =
      some STATE_RUNNING ∧
    (init_game overSnapshot [(0, 0)]).map (fun t => t.score) = some 0 := by
  decide

/-- C3 amended: the Dormant-to-Active transition performs a Reset exactly
when the saved body length is zero; a snapshot with a non-zero body
length — even one whose phase is already Over — is resumed as found. -/
theorem resume_reset_only_on_empty_body (s : GameState)
    (rnds : List (Nat × Nat)) :
    (s.snake_length = 0 → takeover_resume s rnds = init_game s rnds) ∧
    (s.snake_length ≠ 0 → takeover_resume s rnds = some s) := by
  unfold takeover_resume
  by_cases h : s.snake_length = 0 <;> simp [h]

/-- C3 witness: the empty and the game-over snapshots, concretely. -/
theorem resume_reset_only_on_empty_body_witness :
    takeover_resume emptyRegion [(0, 0)] = init_game emptyRegion [(0, 0)] ∧
    takeover_resume overSnapshot [] = some overSnapshot :=
  ⟨(resume_reset_only_on_empty_body emptyRegion [(0, 0)]).1 (by decide),
   (resume_reset_only_on_empty_body overSnapshot []).2 (by decide)⟩

/-! ## C6: wall collision mutates only phase and high score -/

/-- C6: when the candidate head is outside the board, the step sets the
phase to Over and the high score to `max high_score score`, and changes
nothing else — the resulting state is the old one with exactly those two
fields updated. -/
theorem wall_collision_frame (s : GameState) (rnds : List (Nat × Nat))
    (hrun : s.game_state = STATE_RUNNING)
    (hout : out_of_bounds (applyDir s.direction s.snake.headI)) :
    move_snake s rnds =
      some { s with game_state := STATE_GAMEOVER,
                    high_score := max s.high_score s.score } := by
  rw [move_snake_wall s rnds hrun hout]
  obtain ⟨hb, mg, gs, sc, hs, sn, di, fd, tr⟩ := s
  unfold commit_high
  split <;> simp_all <;> omega

/-- C6 witness: the snapshot on the left wall heading left. -/
theorem wall_collision_frame_witness :
    move_snake wallSnapshot [] =
      some { wallSnapshot with
             game_state := STATE_GAMEOVER,
             high_score := max wallSnapshot.high_score wallSnapshot.score } :=
  wall_collision_frame wallSnapshot [] (by decide) (by decide)

/-! ## C5: a step never shrinks the body -/

/-- C5: a step from a Running state (with a valid body length) keeps the
body length constant or grows it by exactly one. -/
theorem step_length_non_decreasing (s : GameState) (rnds : List (Nat × Nat))
    (s2 : GameState) (hrun : s.game_state = STATE_RUNNING)
    (hpos : 0 < s.snake_length) (hmax : s.snake_length ≤ MAX_SNAKE_LEN)
    (hstep : move_snake s rnds = some s2) :
    s2.snake_length = s.snake_length ∨ s2.snake_length = s.snake_length + 1 := by
  unfold GameState.snake_length at *
  by_cases hout : out_of_bounds (applyDir s.direction s.snake.headI)
  · rw [move_snake_wall s rnds hrun hout] at hstep
    cases hstep
    left
    simp [commit_high_snake]
  · by_cases hate : applyDir s.direction s.snake.headI = s.food
    · rw [move_snake_ate s rnds hrun hout hate] at hstep
      cases hsp : spawn_food (grow_body s.snake (applyDir s.direction s.snake.headI)) rnds with
      | none => rw [hsp] at hstep; cases hstep
      | some f =>
        rw [hsp] at hstep
        cases hstep
        show (after_body s _).snake.length = _ ∨ (after_body s _).snake.length = _
        rw [after_body_snake]
        unfold grow_body
        split
        · right; simp
        · left; simp [List.length_tail]; omega
    · rw [move_snake_normal s rnds hrun hout hate] at hstep
      cases hstep
      left
      rw [after_body_snake]
      unfold shift_body
      simp [List.length_take]
      omega

/-- C5 witness: one concrete food-eating step grows the body by one. -/
theorem step_length_non_decreasing_witness :
    eatStepResult.snake_length = eatSnapshot.snake_length ∨
    eatStepResult.snake_length = eatSnapshot.snake_length + 1 :=
  step_length_non_decreasing eatSnapshot [(0, 0)] eatStepResult
    (by decide) (by decide) (by decide) (by decide)

/-! ## C7: eating food -/

set_option maxRecDepth 10000 in
/-- C7 counterexample: a Running state whose body already has the maximal
length 1000 and whose candidate head equals the food (inside the board)
does not grow by one — the step leaves the length at 1000, refuting the
unqualified claim. -/
theorem food_step_growth_cex :
    fullSnapshot.game_state = STATE_RUNNING ∧
    applyDir fullSnapshot.direction fullSnapshot.snake.headI = fullSnapshot.food ∧
    ¬ out_of_bounds (applyDir fullSnapshot.direction fullSnapshot.snake.headI) ∧
    fullSnapshot.snake_length = 1000 ∧
    (move_snake fullSnapshot [(0, 0)]).map (fun t => t.snake_length) =
      some 1000 := by
  decide

/-- C7 amended: when the candidate head equals the food (inside the
board) and the body length is still below the fixed maximum 1000 (and the
32-bit score does not wrap), the step adds 10 to the score, grows the
body by exactly one, and draws a food cell disjoint from the resulting
body. -/
theorem food_step_growth (s : GameState) (rnds : List (Nat × Nat))
    (s2 : GameState) (hrun : s.game_state = STATE_RUNNING)
    (hin : ¬ out_of_bounds (applyDir s.direction s.snake.headI))
    (hate : applyDir s.direction s.snake.headI = s.food)
    (hlen : s.snake_length < MAX_SNAKE_LEN)
    (hsc : s.score + 10 < UINT32_MOD)
    (hstep : move_snake s rnds = some s2) :
    s2.score = s.score + 10 ∧
    s2.snake_length = s.snake_length + 1 ∧
    s2.food ∉ s2.snake := by
  unfold GameState.snake_length at *
  rw [move_snake_ate s rnds hrun hin hate] at hstep
  cases hsp : spawn_food (grow_body s.snake (applyDir s.direction s.snake.headI)) rnds with
  | none => rw [hsp] at hstep; cases hstep
  | some f =>
    rw [hsp] at hstep
    cases hstep
    refine ⟨Nat.mod_eq_of_lt hsc, ?_, ?_⟩
    · show (after_body s _).snake.length = _
      rw [after_body_snake]
      unfold grow_body
      rw [if_pos hlen]
      simp
    · show f ∉ (after_body s _).snake
      rw [after_body_snake]
      exact spawn_food_not_mem _ rnds f hsp

/-- C7 witness: the concrete food-eating step. -/
theorem food_step_growth_witness :
    eatStepResult.score = eatSnapshot.score + 10 ∧
    eatStepResult.snake_length = eatSnapshot.snake_length + 1 ∧
    eatStepResult.food ∉ eatStepResult.snake :=
  food_step_growth eatSnapshot [(0, 0)] eatStepResult (by decide) (by decide)
    (by decide) (by decide) (by decide) (by decide)

/-! ## C10: behaviour at the maximal body length -/

/-- C10: at the maximal body length 1000 a food-eating step keeps the
length at 1000 while still adding 10 to the score and drawing a fresh
food cell off the body; and no step ever pushes the length above the
maximum. -/
theorem max_length_step (s : GameState) (rnds : List (Nat × Nat))
    (s2 : GameState) :
    (s.game_state = STATE_RUNNING →
      ¬ out_of_bounds (applyDir s.direction s.snake.headI) →
      applyDir s.direction s.snake.headI = s.food →
      s.snake_length = MAX_SNAKE_LEN →
      s.score + 10 < UINT32_MOD →
      move_snake s rnds = some s2 →
      s2.snake_length = MAX_SNAKE_LEN ∧ s2.score = s.score + 10 ∧
      s2.food ∉ s2.snake) ∧
    (s.snake_length ≤ MAX_SNAKE_LEN → move_snake s rnds = some s2 →
      s2.snake_length ≤ MAX_SNAKE_LEN) := by
  constructor
  · intro hrun hin hate hlen hsc hstep
    unfold GameState.snake_length at *
    rw [move_snake_ate s rnds hrun hin hate] at hstep
    cases hsp : spawn_food (grow_body s.snake (applyDir s.direction s.snake.headI)) rnds with
    | none => rw [hsp] at hstep; cases hstep
    | some f =>
      rw [hsp] at hstep
      cases hstep
      refine ⟨?_, Nat.mod_eq_of_lt hsc, ?_⟩
      · show (after_body s _).snake.length = _
        rw [after_body_snake]
        unfold grow_body
        simp only [MAX_SNAKE_LEN] at hlen ⊢
        rw [if_neg (by omega)]
        simp only [List.length_cons, List.length_tail]
        omega
      · show f ∉ (after_body s _).snake
        rw [after_body_snake]
        exact spawn_food_not_mem _ rnds f hsp
  · intro hmax hstep
    unfold GameState.snake_length at *
    by_cases hrun : s.game_state = STATE_RUNNING
    · by_cases hout : out_of_bounds (applyDir s.direction s.snake.headI)
      · rw [move_snake_wall s rnds hrun hout] at hstep
        cases hstep
        simpa [commit_high_snake] using hmax
      · by_cases hate : applyDir s.direction s.snake.headI = s.food
        · rw [move_snake_ate s rnds hrun hout hate] at hstep
          cases hsp : spawn_food (grow_body s.snake (applyDir s.direction s.snake.headI)) rnds with
          | none => rw [hsp] at hstep; cases hstep
          | some f =>
            rw [hsp] at hstep
            cases hstep
            show (after_body s _).snake.length ≤ _
            rw [after_body_snake]
            unfold grow_body
            simp only [MAX_SNAKE_LEN] at hmax ⊢
            split
            · simp only [List.length_cons]; omega
            · simp only [List.length_cons, List.length_tail]; omega
        · rw [move_snake_normal s rnds hrun hout hate] at hstep
          cases hstep
          rw [after_body_snake]
          unfold shift_body
          simp only [MAX_SNAKE_LEN] at hmax ⊢
          simp only [List.length_cons, List.length_take]
          omega
    · rw [move_snake_not_running s rnds hrun] at hstep
      cases hstep
      exact hmax

set_option maxRecDepth 10000 in
/-- C10 witness: the concrete step at the cap. -/
theorem max_length_step_witness :
    fullStepResult.snake_length = MAX_SNAKE_LEN ∧
    fullStepResult.score = fullSnapshot.score + 10 ∧
    fullStepResult.food ∉ fullStepResult.snake :=
  (max_length_step fullSnapshot [(0, 0)] fullStepResult).1 (by decide)
    (by decide) (by decide) (by decide) (by decide) (by decide)

/-! ## C8: reverse headings are rejected -/

theorem arrow_request_lt (c : Char) (d : Nat) (h : arrow_request c = some d) :
    d < 4 := by
  unfold arrow_request at h
  split_ifs at h <;> cases h <;> decide

theorem wasd_request_lt (c : Char) (d : Nat) (h : wasd_request c = some d) :
    d < 4 := by
  unfold wasd_request at h
  split_ifs at h <;> cases h <;> decide

/-- The arrow-key switch computes the requested heading guarded by the
reverse check. -/
theorem arrow_new_dir_eq (dir : Nat) (c : Char) (d : Nat)
    (h : arrow_request c = some d) :
    arrow_new_dir dir c = if dir ≠ reverse_of d then d else dir := by
  unfold arrow_request at h
  split_ifs at h <;> cases h <;>
    simp_all [arrow_new_dir, reverse_of, DIR_UP, DIR_DOWN, DIR_LEFT, DIR_RIGHT]

/-- The WASD switch computes the requested heading guarded by the
reverse check. -/
theorem wasd_new_dir_eq (dir : Nat) (c : Char) (d : Nat)
    (h : wasd_request c = some d) :
    wasd_new_dir dir c = if dir ≠ reverse_of d then d else dir := by
  unfold wasd_request at h
  split_ifs at h <;> cases h <;>
    simp_all [wasd_new_dir, reverse_of, DIR_UP, DIR_DOWN, DIR_LEFT, DIR_RIGHT]

theorem reverse_of_big (dir : Nat) (h : 4 ≤ dir) : reverse_of dir = dir := by
  unfold reverse_of DIR_UP DIR_DOWN DIR_LEFT DIR_RIGHT
  split_ifs <;> omega

theorem reverse_of_reverse_of (d : Nat) (hd : d < 4) :
    reverse_of (reverse_of d) = d := by
  interval_cases d <;> decide

/-- For an in-range requested heading, being the reverse is symmetric. -/
theorem reverse_eq_comm (d dir : Nat) (hd : d < 4) :
    dir = reverse_of d ↔ d = reverse_of dir := by
  constructor
  · intro h
    rw [h, reverse_of_reverse_of d hd]
  · intro h
    by_cases hdir : dir < 4
    · rw [h, reverse_of_reverse_of dir hdir]
    · rw [reverse_of_big dir (by omega)] at h
      omega

/-- What the arrow path does to the heading, as one equation. -/
theorem arrow_input_dir (s : GameState) (c : Char) (d : Nat)
    (h : arrow_request c = some d) :
    (arrow_input s c).direction =
      if s.game_state = STATE_RUNNING ∧ s.direction ≠ reverse_of d ∧
         d ≠ s.direction then d
      else s.direction := by
  unfold arrow_input
  rw [arrow_new_dir_eq s.direction c d h]
  by_cases hrev : s.direction = reverse_of d
  · simp [hrev]
  · by_cases hg : s.game_state = STATE_RUNNING <;>
      by_cases hne : d = s.direction <;> simp [hrev, hg, hne]

/-- What the WASD path does to the heading, as one equation. -/
theorem wasd_input_dir (s : GameState) (c : Char) (d : Nat)
    (h : wasd_request c = some d) :
    (wasd_input s c).direction =
      if s.game_state = STATE_RUNNING ∧ s.direction ≠ reverse_of d ∧
         d ≠ s.direction then d
      else s.direction := by
  unfold wasd_input
  rw [wasd_new_dir_eq s.direction c d h]
  by_cases hrev : s.direction = reverse_of d
  · simp [hrev]
  · by_cases hg : s.game_state = STATE_RUNNING <;>
      by_cases hne : d = s.direction <;> simp [hrev, hg, hne]

/-- C8: on both the arrow-key and the WASD path, a heading change happens
only while Running and only when the requested heading is not the exact
reverse of the current one (and then the heading becomes the requested
one); a reverse request always leaves the heading unchanged. -/
theorem heading_reverse_rejected (s : GameState) (c : Char) (d : Nat) :
    (arrow_request c = some d →
      ((arrow_input s c).direction ≠ s.direction →
        s.game_state = STATE_RUNNING ∧ d ≠ reverse_of s.direction ∧
        (arrow_input s c).direction = d) ∧
      (d = reverse_of s.direction → (arrow_input s c).direction = s.direction)) ∧
    (wasd_request c = some d →
      ((wasd_input s c).direction ≠ s.direction →
        s.game_state = STATE_RUNNING ∧ d ≠ reverse_of s.direction ∧
        (wasd_input s c).direction = d) ∧
      (d = reverse_of s.direction → (wasd_input s c).direction = s.direction)) := by
  constructor
  · intro hreq
    have hd4 := arrow_request_lt c d hreq
    have he := arrow_input_dir s c d hreq
    constructor
    · intro hch
      rw [he] at hch ⊢
      by_cases hcond : s.game_state = STATE_RUNNING ∧
          s.direction ≠ reverse_of d ∧ d ≠ s.direction
      · rw [if_pos hcond] at hch ⊢
        exact ⟨hcond.1,
          fun hdr => hcond.2.1 ((reverse_eq_comm d s.direction hd4).2 hdr), rfl⟩
      · rw [if_neg hcond] at hch
        exact absurd rfl hch
    · intro hdr
      rw [he]
      have hrev := (reverse_eq_comm d s.direction hd4).2 hdr
      rw [if_neg (by simp [hrev])]
  · intro hreq
    have hd4 := wasd_request_lt c d hreq
    have he := wasd_input_dir s c d hreq
    constructor
    · intro hch
      rw [he] at hch ⊢
      by_cases hcond : s.game_state = STATE_RUNNING ∧
          s.direction ≠ reverse_of d ∧ d ≠ s.direction
      · rw [if_pos hcond] at hch ⊢
        exact ⟨hcond.1,
          fun hdr => hcond.2.1 ((reverse_eq_comm d s.direction hd4).2 hdr), rfl⟩
      · rw [if_neg hcond] at hch
        exact absurd rfl hch
    · intro hdr
      rw [he]
      have hrev := (reverse_eq_comm d s.direction hd4).2 hdr
      rw [if_neg (by simp [hrev])]

/-- C8 witness: requesting left while heading right leaves the heading
unchanged. -/
theorem heading_reverse_rejected_witness :
    (arrow_input eatSnapshot 'D').direction = eatSnapshot.direction :=
  ((heading_reverse_rejected eatSnapshot 'D' DIR_LEFT).1 (by decide)).2 (by decide)

/-! ## C9: the high score never decreases -/

theorem check_collision_cons (p : Point) (t : List Point) :
    check_collision (p :: t) = true ↔ p ∈ t := by
  unfold check_collision
  constructor
  · intro h; simpa using h
  · intro h; simpa using h

/-- One simulation step never lowers the high score. -/
theorem move_high_mono (s : GameState) (rnds : List (Nat × Nat)) (s2 : GameState)
    (h : move_snake s rnds = some s2) : s.high_score ≤ s2.high_score := by
  by_cases hrun : s.game_state = STATE_RUNNING
  · by_cases hout : out_of_bounds (applyDir s.direction s.snake.headI)
    · rw [move_snake_wall s rnds hrun hout] at h
      cases h
      calc s.high_score
          = ({ s with game_state := STATE_GAMEOVER } : GameState).high_score := rfl
        _ ≤ _ := commit_high_le _
    · by_cases hate : applyDir s.direction s.snake.headI = s.food
      · rw [move_snake_ate s rnds hrun hout hate] at h
        cases hsp : spawn_food (grow_body s.snake (applyDir s.direction s.snake.headI)) rnds with
        | none => rw [hsp] at h; cases h
        | some f =>
          rw [hsp] at h
          cases h
          exact after_body_high_ge s _
      · rw [move_snake_normal s rnds hrun hout hate] at h
        cases h
        exact after_body_high_ge s _
  · rw [move_snake_not_running s rnds hrun] at h
    cases h
    exact le_refl _

/-- A Reset keeps the high score, restarts the game and re-establishes
the food-off-body invariant. -/
theorem init_game_fields (s : GameState) (rnds : List (Nat × Nat))
    (s2 : GameState) (h : init_game s rnds = some s2) :
    s2.high_score = s.high_score ∧ s2.game_state = STATE_RUNNING ∧
    s2.score = 0 ∧ FoodInv s2 := by
  simp only [init_game] at h
  cases hsp : spawn_food init_body rnds with
  | none => rw [hsp] at h; cases h
  | some f =>
    rw [hsp] at h
    cases h
    refine ⟨rfl, rfl, rfl, ?_⟩
    show f ∉ init_body
    exact spawn_food_not_mem _ rnds f hsp

theorem pause_toggle_fields (s : GameState) :
    (pause_toggle s).high_score = s.high_score ∧
    (pause_toggle s).snake = s.snake ∧ (pause_toggle s).food = s.food := by
  unfold pause_toggle
  split_ifs <;> exact ⟨rfl, rfl, rfl⟩

theorem arrow_input_fields (s : GameState) (c : Char) :
    (arrow_input s c).high_score = s.high_score ∧
    (arrow_input s c).snake = s.snake ∧ (arrow_input s c).food = s.food := by
  unfold arrow_input
  split_ifs <;> exact ⟨rfl, rfl, rfl⟩

theorem wasd_input_fields (s : GameState) (c : Char) :
    (wasd_input s c).high_score = s.high_score ∧
    (wasd_input s c).snake = s.snake ∧ (wasd_input s c).food = s.food := by
  unfold wasd_input
  split_ifs <;> exact ⟨rfl, rfl, rfl⟩

/-- A simulation step keeps the food off the body. -/
theorem move_FoodInv (s : GameState) (rnds : List (Nat × Nat)) (s2 : GameState)
    (hinv : FoodInv s) (h : move_snake s rnds = some s2) : FoodInv s2 := by
  by_cases hrun : s.game_state = STATE_RUNNING
  · by_cases hout : out_of_bounds (applyDir s.direction s.snake.headI)
    · rw [move_snake_wall s rnds hrun hout] at h
      cases h
      unfold FoodInv
      rw [commit_high_food, commit_high_snake]
      exact hinv
    · by_cases hate : applyDir s.direction s.snake.headI = s.food
      · rw [move_snake_ate s rnds hrun hout hate] at h
        cases hsp : spawn_food (grow_body s.snake (applyDir s.direction s.snake.headI)) rnds with
        | none => rw [hsp] at h; cases h
        | some f =>
          rw [hsp] at h
          cases h
          show f ∉ (after_body s _).snake
          rw [after_body_snake]
          exact spawn_food_not_mem _ rnds f hsp
      · rw [move_snake_normal s rnds hrun hout hate] at h
        cases h
        unfold FoodInv
        rw [after_body_food, after_body_snake]
        unfold shift_body
        intro hmem
        rcases List.mem_cons.1 hmem with hfe | hft
        · exact hate hfe.symm
        · exact hinv (List.take_subset _ _ hft)
  · rw [move_snake_not_running s rnds hrun] at h
    cases h
    exact hinv

/-- Without a self collision the phase is carried over unchanged. -/
theorem after_body_game_state_no_col (s : GameState) (body : List Point)
    (hcol : ¬ check_collision body = true) :
    (after_body s body).game_state = s.game_state := by
  unfold after_body
  rw [if_neg hcol]

/-- A step that ends in game over commits `high_score ≥ score`. -/
theorem move_to_over_high (s : GameState) (rnds : List (Nat × Nat))
    (s2 : GameState) (hinv : FoodInv s) (hrun : s.game_state = STATE_RUNNING)
    (h : move_snake s rnds = some s2)
    (hover : s2.game_state = STATE_GAMEOVER) : s2.score ≤ s2.high_score := by
  by_cases hout : out_of_bounds (applyDir s.direction s.snake.headI)
  · rw [move_snake_wall s rnds hrun hout] at h
    cases h
    rw [commit_high_score]
    exact commit_high_score_le _
  · by_cases hate : applyDir s.direction s.snake.headI = s.food
    · rw [move_snake_ate s rnds hrun hout hate] at h
      cases hsp : spawn_food (grow_body s.snake (applyDir s.direction s.snake.headI)) rnds with
      | none => rw [hsp] at h; cases h
      | some f =>
        rw [hsp] at h
        cases h
        exfalso
        by_cases hcol : check_collision (grow_body s.snake (applyDir s.direction s.snake.headI)) = true
        · have hmem : applyDir s.direction s.snake.headI ∈ s.snake := by
            unfold grow_body at hcol
            split at hcol
            · exact (check_collision_cons _ _).1 hcol
            · exact List.tail_subset _ ((check_collision_cons _ _).1 hcol)
          rw [hate] at hmem
          exact hinv hmem
        · have hover2 : (after_body s (grow_body s.snake
              (applyDir s.direction s.snake.headI))).game_state =
              STATE_GAMEOVER := hover
          rw [after_body_game_state_no_col s _ hcol, hrun] at hover2
          exact absurd hover2 (by decide)
    · rw [move_snake_normal s rnds hrun hout hate] at h
      cases h
      by_cases hcol : check_collision (shift_body s.snake (applyDir s.direction s.snake.headI)) = true
      · show (after_body s _).score ≤ (after_body s _).high_score
        unfold after_body
        rw [if_pos hcol, commit_high_score]
        exact commit_high_score_le _
      · exfalso
        rw [after_body_game_state_no_col s _ hcol, hrun] at hover
        exact absurd hover (by decide)

/-- Every operation keeps the high score from decreasing. -/
theorem apply_op_high_mono (s : GameState) (op : Op) (s2 : GameState)
    (h : apply_op s op = some s2) : s.high_score ≤ s2.high_score := by
  cases op with
  | step rnds => exact move_high_mono s rnds s2 h
  | pauseKey =>
    cases h
    exact le_of_eq (pause_toggle_fields s).1.symm
  | resetKey rnds =>
    unfold apply_op at h
    split_ifs at h
    · exact le_of_eq (init_game_fields s rnds s2 h).1.symm
    · cases h; exact le_refl _
  | arrowKey c =>
    cases h
    exact le_of_eq (arrow_input_fields s c).1.symm
  | wasdKey c =>
    cases h
    exact le_of_eq (wasd_input_fields s c).1.symm

/-- Every operation keeps the food off the body. -/
theorem apply_op_FoodInv (s : GameState) (op : Op) (s2 : GameState)
    (h : apply_op s op = some s2) (hinv : FoodInv s) : FoodInv s2 := by
  cases op with
  | step rnds => exact move_FoodInv s rnds s2 hinv h
  | pauseKey =>
    cases h
    unfold FoodInv
    rw [(pause_toggle_fields s).2.1, (pause_toggle_fields s).2.2]
    exact hinv
  | resetKey rnds =>
    unfold apply_op at h
    split_ifs at h
    · exact (init_game_fields s rnds s2 h).2.2.2
    · cases h; exact hinv
  | arrowKey c =>
    cases h
    unfold FoodInv
    rw [(arrow_input_fields s c).2.1, (arrow_input_fields s c).2.2]
    exact hinv
  | wasdKey c =>
    cases h
    unfold FoodInv
    rw [(wasd_input_fields s c).2.1, (wasd_input_fields s c).2.2]
    exact hinv

/-- Monotonicity and the food invariant along any operation sequence. -/
theorem run_ops_mono (ops : List Op) : ∀ s s2 : GameState,
    run_ops s ops = some s2 →
    s.high_score ≤ s2.high_score ∧ (FoodInv s → FoodInv s2) := by
  induction ops with
  | nil =>
    intro s s2 h
    cases h
    exact ⟨le_refl _, id⟩
  | cons op ops ih =>
    intro s s2 h
    unfold run_ops at h
    cases hop : apply_op s op with
    | none => rw [hop] at h; cases h
    | some s1 =>
      rw [hop] at h
      have hrest := ih s1 s2 h
      exact ⟨le_trans (apply_op_high_mono s op s1 hop) hrest.1,
        fun hi => hrest.2 (apply_op_FoodInv s op s1 hop hi)⟩

/-- C9: across any sequence of steps, input commands and Resets the high
score never decreases (and the food-off-body invariant is preserved); a
Reset leaves the high score exactly unchanged while restarting the game;
and a step that moves the phase to Over leaves `high_score ≥ score`. -/
theorem high_score_monotone (s : GameState) (ops : List Op)
    (rnds : List (Nat × Nat)) (s2 : GameState) :
    (run_ops s ops = some s2 →
      s.high_score ≤ s2.high_score ∧ (FoodInv s → FoodInv s2)) ∧
    (init_game s rnds = some s2 →
      s2.high_score = s.high_score ∧ FoodInv s2) ∧
    (FoodInv s → s.game_state = STATE_RUNNING →
      move_snake s rnds = some s2 → s2.game_state = STATE_GAMEOVER →
      s2.score ≤ s2.high_score) :=
  ⟨fun h => run_ops_mono ops s s2 h,
   fun h => ⟨(init_game_fields s rnds s2 h).1, (init_game_fields s rnds s2 h).2.2.2⟩,
   fun hinv hrun h hover => move_to_over_high s rnds s2 hinv hrun h hover⟩

/-- C9 witness: one concrete food-eating step. -/
theorem high_score_monotone_witness :
    eatSnapshot.high_score ≤ eatStepResult.high_score ∧
    (FoodInv eatSnapshot → FoodInv eatStepResult) :=
  (high_score_monotone eatSnapshot [Op.step [(0, 0)]] [] eatStepResult).1
    (by decide)

/-! ## C2: heartbeat-timeout takeover -/

/-- One quiet waiting-loop iteration (no takeover flag pending, no
self-initiated request) is exactly the heartbeat staleness check. -/
theorem dormant_iter_quiet (hb now lh lc : Nat) :
    dormant_iter 0 hb now ⟨lh, lc, false, false⟩ =
      if 1000 ≤ now - lc then
        (if hb = lh then ((⟨lh, lc, true, false⟩ : DormantLocal), 0)
         else ((⟨hb, now, false, false⟩ : DormantLocal), 0))
      else ((⟨lh, lc, false, false⟩ : DormantLocal), 0) := by
  unfold dormant_iter takeover_flag_check heartbeat_check
  split_ifs <;> simp_all

/-- Once the waiting loop has claimed Active it stays Active. -/
theorem dormant_run_active_le (HB : Nat → Nat) (m n : Nat) (hmn : m ≤ n)
    (h : (dormant_run HB m).active = true) :
    (dormant_run HB n).active = true := by
  induction n with
  | zero =>
    have hm : m = 0 := Nat.le_zero.1 hmn
    rwa [hm] at h
  | succ n ih =>
    rcases Nat.lt_or_ge m (n + 1) with hlt | hge
    · have ha := ih (by omega)
      show (dormant_iter 0 (HB (100 * n)) (100 * n) (dormant_run HB n)).1.active = true
      unfold dormant_iter
      rw [if_pos ha]
      exact ha
    · have hm : m = n + 1 := by omega
      rwa [hm] at h

/-- From the canonical post-check state at index `10k+1`, the next
liveness check fires exactly at the iteration of time `1000(k+1)` and
compares the heartbeat sampled there with the one sampled at `1000k`. -/
theorem dormant_run_check (HB : Nat → Nat) (k : Nat)
    (hcan : dormant_run HB (10 * k + 1) =
      ⟨HB (1000 * k), 1000 * k, false, false⟩) :
    dormant_run HB (10 * k + 11) =
      if HB (1000 * (k + 1)) = HB (1000 * k) then
        (⟨HB (1000 * k), 1000 * k, true, false⟩ : DormantLocal)
      else ⟨HB (1000 * (k + 1)), 1000 * (k + 1), false, false⟩ := by
  have hstretch : ∀ j : Nat, j ≤ 9 →
      dormant_run HB (10 * k + 1 + j) =
        ⟨HB (1000 * k), 1000 * k, false, false⟩ := by
    intro j
    induction j with
    | zero => intro _; simpa using hcan
    | succ j ihj =>
      intro hj
      have hprev := ihj (by omega)
      rw [show 10 * k + 1 + (j + 1) = (10 * k + 1 + j) + 1 from by omega]
      show (dormant_iter 0 (HB (100 * (10 * k + 1 + j)))
          (100 * (10 * k + 1 + j)) (dormant_run HB (10 * k + 1 + j))).1 = _
      rw [hprev, dormant_iter_quiet, if_neg (by omega)]
  have h10 : dormant_run HB (10 * k + 10) =
      ⟨HB (1000 * k), 1000 * k, false, false⟩ := by
    rw [show 10 * k + 10 = 10 * k + 1 + 9 from by omega]
    exact hstretch 9 (by omega)
  rw [show 10 * k + 11 = (10 * k + 10) + 1 from by omega]
  show (dormant_iter 0 (HB (100 * (10 * k + 10)))
      (100 * (10 * k + 10)) (dormant_run HB (10 * k + 10))).1 = _
  rw [h10, dormant_iter_quiet, if_pos (by omega),
      show 100 * (10 * k + 10) = 1000 * (k + 1) from by ring]
  split_ifs <;> rfl

/-- After each full check window the waiting process is either already
Active or in the canonical state that remembers the heartbeat sampled at
the window boundary. -/
theorem dormant_run_canonical (HB : Nat → Nat) : ∀ k : Nat,
    (dormant_run HB (10 * k + 1)).active = true ∨
    dormant_run HB (10 * k + 1) =
      ⟨HB (1000 * k), 1000 * k, false, false⟩ := by
  intro k
  induction k with
  | zero =>
    right
    show (dormant_iter 0 (HB (100 * 0)) (100 * 0) (dormant_run HB 0)).1 = _
    rw [show dormant_run HB 0 = ⟨HB 0, 0, false, false⟩ from rfl,
        dormant_iter_quiet, if_neg (by omega)]
  | succ k ih =>
    rcases ih with hact | hcan
    · left
      exact dormant_run_active_le HB _ _ (by omega) hact
    · have hch := dormant_run_check HB k hcan
      rw [show 10 * (k + 1) + 1 = 10 * k + 11 from by omega]
      by_cases hhb : HB (1000 * (k + 1)) = HB (1000 * k)
      · left
        rw [hch, if_pos hhb]
      · right
        rw [hch, if_neg hhb]

/-- C2 amended: once the heartbeat stops advancing at time `T`, the
waiting process claims Active within two timeout windows — the stalled
value must first be sampled at a liveness check (at most one window plus
the polling slack after `T`), and the following check, one window later,
finds it unchanged; the claim's bound of one timeout window plus one
polling interval does not hold in general.  The takeover adopts the
shared simulation state exactly as written whenever the saved body
length is non-zero. -/
theorem heartbeat_timeout_takeover (HB : Nat → Nat) (T : Nat) (s : GameState)
    (rnds : List (Nat × Nat)) (hconst : ∀ t, T ≤ t → HB t = HB T) :
    ((dormant_run HB (10 * ((T + 999) / 1000) + 11)).active = true ∧
      1000 * ((T + 999) / 1000) + 1000 ≤ T + 2000) ∧
    (s.snake_length ≠ 0 → takeover_resume s rnds = some s) := by
  have hdm := Nat.div_add_mod (T + 999) 1000
  have hml : (T + 999) % 1000 < 1000 := Nat.mod_lt _ (by omega)
  constructor
  · constructor
    · rcases dormant_run_canonical HB ((T + 999) / 1000) with hact | hcan
      · exact dormant_run_active_le HB _ _ (by omega) hact
      · have hch := dormant_run_check HB ((T + 999) / 1000) hcan
        rw [hch, if_pos]
        rw [hconst (1000 * ((T + 999) / 1000 + 1)) (by omega),
            hconst (1000 * ((T + 999) / 1000)) (by omega)]
    · omega
  · intro hnz
    unfold takeover_resume
    rw [if_neg hnz]

/-- C2 witness: under a heartbeat that is constant from time 0 the
waiting process has taken over by the predicted iteration, and a
non-empty game-over snapshot is resumed unchanged. -/
theorem heartbeat_timeout_takeover_witness :
    ((dormant_run (fun _ => 7) (10 * ((0 + 999) / 1000) + 11)).active = true ∧
      1000 * ((0 + 999) / 1000) + 1000 ≤ 0 + 2000) ∧
    takeover_resume overSnapshot [] = some overSnapshot := by
  have h := heartbeat_timeout_takeover (fun _ => 7) 0 overSnapshot []
    (fun t _ => rfl)
  exact ⟨h.1, h.2 (by decide)⟩

/-- C2 counterexample: a heartbeat that advances once more just after a
liveness check and then stalls at t = 2050 ms.  The waiting process is
not Active at any iteration up to one timeout window plus one polling
interval after the stall (t ≤ 3150 ms); it only claims Active at the
check of t = 4000 ms, two windows after the stall. -/
theorem heartbeat_timeout_one_window_cex :
    (∀ t, 2050 ≤ t → staleTrace t = staleTrace 2050) ∧
    (¬ ∃ n, 100 * n ≤ 2050 + 1000 + 100 ∧
      (dormant_run staleTrace (n + 1)).active = true) ∧
    (dormant_run staleTrace 41).active = true := by
  refine ⟨?_, ?_, ?_⟩
  · intro t ht
    unfold staleTrace
    split_ifs <;> omega
  · rintro ⟨n, hn, hact⟩
    have hall : ∀ m, m < 33 → (dormant_run staleTrace m).active = false := by
      decide
    have hfalse := hall (n + 1) (by omega)
    rw [hfalse] at hact
    exact absurd hact (by decide)
  · decide
